import Mathlib

/-!
Shallow embedding of the agent registry, runtime session cache, provider
catalog and conversation ledger of the pydantic-ai agent framework
(src/app.py, src/utils/agent_manager.py, src/utils/config_manager.py,
src/config/settings.py, src/utils/database.py), together with theorems
settling the specification claims.
-/

/-- Association-list lookup, mirroring Python dict access `d.get(k)`. -/
def lookupA {α : Type} : List (String × α) → String → Option α
  | [], _ => none
  | (k, v) :: rest, key => if k = key then some v else lookupA rest key

/-- Association-list write, mirroring Python dict assignment `d[k] = v`
(replaces the entry for the key, or appends a new one). -/
def setA {α : Type} : List (String × α) → String → α → List (String × α)
  | [], key, v => [(key, v)]
  | (k, w) :: rest, key, v => if k = key then (key, v) :: rest else (k, w) :: setA rest key v

/-- Token-usage metadata attached to an agent response (the `usage` dict);
`total_tokens` is the only key the ledger reads, and it may be absent from
the dict. -/
structure UsageData where
  total_tokens : Option Nat
deriving DecidableEq

/-- Tokens charged by an exchange: `usage_data.get("total_tokens", 0)` guarded
by `if usage_data:` in `Database._update_agent_stats`. -/
def usageTokens : Option UsageData → Nat
  | none => 0
  | some u => u.total_tokens.getD 0

/-- The fields of the `AgentConfig` pydantic model in src/app.py — the draft a
caller submits to create or update an agent.  Pydantic enforces only the field
types; there are no validators on field contents or numeric ranges. -/
structure AgentDraft where
  name : String
  description : String
  system_prompt : String
  model_provider : String
  model_name : String
  temperature : Rat
  max_tokens : Int
  tools : List String
  enabled : Bool
deriving DecidableEq

/-- A persisted agent definition: the draft fields plus the metadata that
`AgentManager.create_agent` / `update_agent` stamp on (`id`, `created_at`,
`updated_at`). -/
structure StoredAgent where
  cfg : AgentDraft
  id : String
  created_at : String
  updated_at : String
deriving DecidableEq

/-- `AgentManager.create_agent`: assigns the generated identity, stamps both
timestamps to the current time, persists, and returns the identity.  The
generated uuid4 and `datetime.now()` are passed in as `fresh` and `now`.
No field of the draft is validated. -/
def create_agent (cache : List (String × StoredAgent)) (draft : AgentDraft)
    (fresh now : String) : String × List (String × StoredAgent) :=
  (fresh, setA cache fresh { cfg := draft, id := fresh, created_at := now, updated_at := now })

/-- `AgentManager.update_agent`: fails if the id is absent from the cache;
otherwise overwrites the definition, preserving `id` and `created_at` and
refreshing `updated_at`. -/
def update_agent (cache : List (String × StoredAgent)) (agentid : String)
    (draft : AgentDraft) (now : String) : Except String (List (String × StoredAgent)) :=
  match lookupA cache agentid with
  | none => .error ("Agent " ++ agentid ++ " not found")
  | some orig =>
      .ok (setA cache agentid
        { cfg := draft, id := agentid, created_at := orig.created_at, updated_at := now })

/-- A provider entry of the `models.providers` catalog written by
`ConfigManager.create_default_config`. -/
structure ProviderConfig where
  api_key_env : Option String
  models : List String
deriving DecidableEq

/-- `ConfigManager.is_provider_configured`: the provider must appear in the
catalog, its entry must declare a truthy `api_key_env` key (absent or empty
string is falsy in Python), and `os.getenv` of that key must not be `None`.
Note the final test is `is not None`: an environment variable set to the
empty string counts as configured. -/
def is_provider_configured (providers : List (String × ProviderConfig))
    (env : String → Option String) (provider : String) : Bool :=
  match lookupA providers provider with
  | none => false
  | some cfg =>
      match cfg.api_key_env with
      | none => false
      | some k => if k = "" then false else (env k).isSome

/-- `Settings.get_available_models`: the catalog filtered to configured
providers, each mapped to its model list. -/
def get_available_models (providers : List (String × ProviderConfig))
    (env : String → Option String) : List (String × List String) :=
  (providers.filter (fun pr => is_provider_configured providers env pr.1)).map
    (fun pr => (pr.1, pr.2.models))

/-- The default provider catalog from `ConfigManager.create_default_config`. -/
def default_providers : List (String × ProviderConfig) :=
  [("openai", { api_key_env := some "OPENAI_API_KEY",
                models := ["gpt-3.5-turbo", "gpt-4", "gpt-4-turbo-preview"] }),
   ("anthropic", { api_key_env := some "ANTHROPIC_API_KEY",
                   models := ["claude-3-haiku-20240307", "claude-3-sonnet-20240229",
                              "claude-3-opus-20240229"] }),
   ("gemini", { api_key_env := some "GEMINI_API_KEY",
                models := ["gemini-pro", "gemini-pro-vision"] })]

/-- The model object built by `AgentManager._get_model` (OpenAIModel /
AnthropicModel / GeminiModel collapsed to their constructor arguments plus the
provider tag selecting the class). -/
structure ModelInstance where
  provider : String
  model_name : String
  temperature : Rat
  max_tokens : Int
deriving DecidableEq

/-- `AgentManager._get_model`: dispatches on the provider string against the
three hardcoded providers; any other provider raises
"Unsupported model provider".  No credential or catalog lookup happens here. -/
def get_model (cfg : AgentDraft) : Except String ModelInstance :=
  if cfg.model_provider = "openai" then
    .ok { provider := "openai", model_name := cfg.model_name,
          temperature := cfg.temperature, max_tokens := cfg.max_tokens }
  else if cfg.model_provider = "anthropic" then
    .ok { provider := "anthropic", model_name := cfg.model_name,
          temperature := cfg.temperature, max_tokens := cfg.max_tokens }
  else if cfg.model_provider = "gemini" then
    .ok { provider := "gemini", model_name := cfg.model_name,
          temperature := cfg.temperature, max_tokens := cfg.max_tokens }
  else
    .error ("Unsupported model provider: " ++ cfg.model_provider)

/-- The tool names resolvable by `AgentManager._get_tool_function`. -/
def known_tools : List String := ["web_search", "calculator", "file_reader"]

/-- A runtime handle: the `pydantic_ai.Agent` instance built by
`AgentManager.create_agent_instance`, snapshotting model, system prompt and
the resolved tools. -/
structure Handle where
  model : ModelInstance
  system_prompt : String
  tools : List String
deriving DecidableEq

/-- `AgentManager.create_agent_instance`: builds the model via `_get_model`,
creates the agent with the config's system prompt, and registers each listed
tool whose name resolves in the tool map (unresolvable names are silently
dropped).  Any exception is re-raised as
"Failed to create agent instance: ...". -/
def create_agent_instance (cfg : AgentDraft) : Except String Handle :=
  match get_model cfg with
  | .error e => .error ("Failed to create agent instance: " ++ e)
  | .ok m =>
      .ok { model := m, system_prompt := cfg.system_prompt,
            tools := cfg.tools.filter (fun t => known_tools.contains t) }

/-- One row of the `conversations` table (`Database._create_tables`);
`created_at` is the insert-time `CURRENT_TIMESTAMP`. -/
structure ConvRow where
  agent_id : String
  user_message : String
  agent_response : String
  user_message_timestamp : String
  agent_response_timestamp : String
  usage_data : Option UsageData
  created_at : String
deriving DecidableEq

/-- One row of the `agent_stats` table (`agent_id` is UNIQUE). -/
structure StatsRow where
  agent_id : String
  total_conversations : Nat
  total_tokens_used : Nat
  last_used : String
  created_at : String
  updated_at : String
deriving DecidableEq

/-- One row of the `system_logs` table. -/
structure LogRow where
  level : String
  message : String
  details : Option String
  timestamp : String
deriving DecidableEq

/-- The three tables of data/agents.db. -/
structure Tables where
  conversations : List ConvRow
  agent_stats : List StatsRow
  system_logs : List LogRow
deriving DecidableEq

/-- A freshly initialized database. -/
def emptyTables : Tables := { conversations := [], agent_stats := [], system_logs := [] }

/-- `SELECT * FROM agent_stats WHERE agent_id = ?` with `fetchone`. -/
def lookupStats : List StatsRow → String → Option StatsRow
  | [], _ => none
  | r :: rest, agentid => if r.agent_id = agentid then some r else lookupStats rest agentid

/-- The UPDATE branch of `Database._update_agent_stats`: conversation count
plus one, token count plus the exchange's tokens, `last_used` and `updated_at`
set to `CURRENT_TIMESTAMP`. -/
def bumpStats (r : StatsRow) (tokens : Nat) (now : String) : StatsRow :=
  { r with total_conversations := r.total_conversations + 1,
           total_tokens_used := r.total_tokens_used + tokens,
           last_used := now, updated_at := now }

/-- The INSERT branch of `Database._update_agent_stats`: a fresh row with
count 1; `created_at` and `updated_at` take their `CURRENT_TIMESTAMP`
column defaults. -/
def freshStats (agentid : String) (tokens : Nat) (now : String) : StatsRow :=
  { agent_id := agentid, total_conversations := 1, total_tokens_used := tokens,
    last_used := now, created_at := now, updated_at := now }

/-- `Database._update_agent_stats`: fetch the stats row for the agent; if one
exists, bump it in place (SQL `UPDATE ... WHERE agent_id = ?`), otherwise
insert a fresh row. -/
def update_agent_stats (rows : List StatsRow) (agentid : String)
    (usage : Option UsageData) (now : String) : List StatsRow :=
  match lookupStats rows agentid with
  | some _ =>
      rows.map (fun r => if r.agent_id = agentid then bumpStats r (usageTokens usage) now else r)
  | none => rows ++ [freshStats agentid (usageTokens usage) now]

/-- One entry of the in-memory `conversation_history` lists built in
`chat_with_agent` (role/content/timestamp dicts; only the assistant entry
carries usage). -/
structure HistMsg where
  role : String
  content : String
  timestamp : String
  usage : Option UsageData
deriving DecidableEq

/-- The `conversations` row inserted by `Database.save_conversation` from the
user and assistant message dicts. -/
def mkConvRow (agentid : String) (um am : HistMsg) (now : String) : ConvRow :=
  { agent_id := agentid, user_message := um.content, agent_response := am.content,
    user_message_timestamp := um.timestamp, agent_response_timestamp := am.timestamp,
    usage_data := am.usage, created_at := now }

/-- `Database.save_conversation` on its success path (no storage failure): the
Exchange INSERT followed by `_update_agent_stats`, both visible after the
`connection.commit()` at the end of the function. -/
def save_conversation_pure (t : Tables) (agentid : String) (um am : HistMsg)
    (now : String) : Tables :=
  let t1 := { t with conversations := t.conversations ++ [mkConvRow agentid um am now] }
  { t1 with agent_stats := update_agent_stats t1.agent_stats agentid am.usage now }

/-- A sqlite connection: the durably committed state plus the state of the
open transaction.  `sqlite3` is not in autocommit mode: writes accumulate in
the open transaction until some `connection.commit()` publishes them. -/
structure Conn where
  durable : Tables
  pending : Tables
deriving DecidableEq

/-- `Database.save_conversation` at transaction granularity, with a fault
injected between the Exchange INSERT and the stats update (`fail_mid`).  The
whole body sits in a `try/except` that merely prints the exception, so the
returned flag — whether an exception escaped to the caller — is always
`false`.  On the failure path `commit` is skipped, but the INSERT already
executed stays in the connection's open transaction. -/
def save_conversation_tx (c : Conn) (agentid : String) (um am : HistMsg)
    (now : String) (fail_mid : Bool) : Conn × Bool :=
  let c1 := { c with pending :=
    { c.pending with conversations := c.pending.conversations ++ [mkConvRow agentid um am now] } }
  if fail_mid then (c1, false)
  else
    let c2 := { c1 with pending :=
      { c1.pending with agent_stats :=
          update_agent_stats c1.pending.agent_stats agentid am.usage now } }
    ({ c2 with durable := c2.pending }, false)

/-- `Database.log_system_event` at transaction granularity: INSERT into
`system_logs` then `connection.commit()`, which publishes everything pending
on the connection. -/
def log_system_event_tx (c : Conn) (level message : String) (details : Option String)
    (now : String) : Conn × Bool :=
  let c1 := { c with pending :=
    { c.pending with system_logs := c.pending.system_logs ++
        [({ level := level, message := message, details := details, timestamp := now } : LogRow)] } }
  ({ c1 with durable := c1.pending }, false)

/-- The query body of `Database.get_conversation_history`, with `fail`
injecting a storage failure anywhere inside the `try` block.  Rows are stored
in insert order and `created_at` is the insert-time timestamp, so reversing
the table realizes `ORDER BY created_at DESC`. -/
def historyQuery (t : Tables) (agentid : String) (limit : Nat) (fail : Bool) :
    Except String (List ConvRow) :=
  if fail then .error "database error"
  else .ok (((t.conversations.filter (fun r => r.agent_id == agentid)).reverse).take limit)

/-- `Database.get_conversation_history`: the query wrapped in `try/except`
returning `[]` on any exception. -/
def get_conversation_history (t : Tables) (agentid : String) (limit : Nat)
    (fail : Bool) : List ConvRow :=
  match historyQuery t agentid limit fail with
  | .ok v => v
  | .error _ => []

/-- The query body of `Database.get_agent_stats`. -/
def statsQuery (t : Tables) (agentid : String) (fail : Bool) :
    Except String (Option StatsRow) :=
  if fail then .error "database error" else .ok (lookupStats t.agent_stats agentid)

/-- `Database.get_agent_stats`: the query wrapped in `try/except` returning
`None` on any exception. -/
def get_agent_stats (t : Tables) (agentid : String) (fail : Bool) : Option StatsRow :=
  match statsQuery t agentid fail with
  | .ok v => v
  | .error _ => none

/-- The query body of `Database.get_total_conversations` (`SELECT COUNT(*)`). -/
def totalQuery (t : Tables) (fail : Bool) : Except String Nat :=
  if fail then .error "database error" else .ok t.conversations.length

/-- `Database.get_total_conversations`: the count wrapped in `try/except`
returning `0` on any exception. -/
def get_total_conversations (t : Tables) (fail : Bool) : Nat :=
  match totalQuery t fail with
  | .ok v => v
  | .error _ => 0

/-- `Database.cleanup_old_data`: deletes `conversations` rows and
`system_logs` rows older than the cutoff (`datetime('now', '-N days')`,
passed in here as the cutoff timestamp) and commits.  The `agent_stats`
table is not mentioned by the function. -/
def cleanup_old_data (t : Tables) (cutoff : String) : Tables :=
  { conversations := t.conversations.filter (fun r => !(decide (r.created_at < cutoff))),
    agent_stats := t.agent_stats,
    system_logs := t.system_logs.filter (fun r => !(decide (r.timestamp < cutoff))) }

/-- The mutable module-level state of src/app.py: the definition store cache
(`AgentManager.agents_cache`), the runtime session cache (`active_agents`),
the in-memory `conversation_history`, and the database tables. -/
structure AppState where
  agents_cache : List (String × StoredAgent)
  active_agents : List (String × Handle)
  conversation_history : List (String × List HistMsg)
  db : Tables
deriving DecidableEq

/-- The `PUT /api/agents/{agent_id}` endpoint: calls
`AgentManager.update_agent` and nothing else — in particular it does not
touch `active_agents`. -/
def api_update_agent (s : AppState) (agentid : String) (draft : AgentDraft)
    (now : String) : Except String AppState :=
  match update_agent s.agents_cache agentid draft now with
  | .error e => .error e
  | .ok cache2 => .ok { s with agents_cache := cache2 }

/-- The `POST /api/agents/{agent_id}/toggle` endpoint: reads the stored
config, flips `enabled`, and routes through `update_agent`. -/
def toggle_agent (s : AppState) (agentid : String) (now : String) :
    Except String AppState :=
  match lookupA s.agents_cache agentid with
  | none => .error "Agent not found"
  | some st => api_update_agent s agentid { st.cfg with enabled := !st.cfg.enabled } now

/-- The JSON returned by `POST /api/chat`, reduced to its success payload
(response text plus usage) or its error string (`HTTPException` details are
caught by the surrounding `except` and returned as the error field). -/
inductive ChatOutcome where
  | ok (response : String) (usage : Option UsageData)
  | err (msg : String)
deriving DecidableEq

/-- The tail of `chat_with_agent` once a handle is at hand: append the user
message to the in-memory history, invoke the handle (`agent.run`, modeled by
the oracle `run`), append the assistant message, persist the exchange via
`Database.save_conversation`, and return the response.  `now` stands for the
`datetime.now().isoformat()` stamps. -/
def chatWithHandle (run : Handle → String → String × Option UsageData)
    (s : AppState) (agentid message now : String) (h : Handle) :
    ChatOutcome × AppState :=
  let hist0 := (lookupA s.conversation_history agentid).getD []
  let user_msg : HistMsg := { role := "user", content := message, timestamp := now, usage := none }
  let result := run h message
  let agent_msg : HistMsg :=
    { role := "assistant", content := result.1, timestamp := now, usage := result.2 }
  (.ok result.1 result.2,
   { s with conversation_history :=
              setA s.conversation_history agentid (hist0 ++ [user_msg, agent_msg]),
            db := save_conversation_pure s.db agentid user_msg agent_msg now })

/-- The `POST /api/chat` endpoint (`chat_with_agent`): if a handle for the id
is cached in `active_agents` it is used directly — the stored definition is
not consulted at all.  Only on a cache miss is the definition fetched,
checked for existence and `enabled`, and a new handle built and cached. -/
def chat (run : Handle → String → String × Option UsageData) (s : AppState)
    (agentid message now : String) : ChatOutcome × AppState :=
  match lookupA s.active_agents agentid with
  | some h => chatWithHandle run s agentid message now h
  | none =>
      match lookupA s.agents_cache agentid with
      | none => (.err "Agent not found", s)
      | some st =>
          if st.cfg.enabled then
            match create_agent_instance st.cfg with
            | .error e => (.err e, s)
            | .ok h =>
                chatWithHandle run
                  { s with active_agents := setA s.active_agents agentid h }
                  agentid message now h
          else (.err "Agent is disabled", s)

/-- Fixture: an enabled agent draft whose system prompt is "old". -/
def wDraftOld : AgentDraft :=
  { name := "A", description := "", system_prompt := "old", model_provider := "openai",
    model_name := "gpt-4", temperature := 1, max_tokens := 100, tools := [], enabled := true }

/-- Fixture: the same draft with the system prompt edited to "new". -/
def wDraftNew : AgentDraft := { wDraftOld with system_prompt := "new" }

/-- Fixture: the handle `create_agent_instance` builds from `wDraftOld`. -/
def wHandleOld : Handle :=
  { model := { provider := "openai", model_name := "gpt-4", temperature := 1, max_tokens := 100 },
    system_prompt := "old", tools := [] }

/-- Fixture: a model-invocation oracle that echoes the handle's system prompt,
making visible which snapshot a send used. -/
def wRun : Handle → String → String × Option UsageData := fun h _ => (h.system_prompt, none)

/-- Fixture: agent "a1" stored with the old prompt and its handle cached. -/
def wState : AppState :=
  { agents_cache := [("a1", { cfg := wDraftOld, id := "a1", created_at := "t0", updated_at := "t0" })],
    active_agents := [("a1", wHandleOld)],
    conversation_history := [],
    db := emptyTables }

/-- Fixture: `wState` after the update to `wDraftNew` commits. -/
def wStateUpd : AppState :=
  { wState with agents_cache :=
      [("a1", { cfg := wDraftNew, id := "a1", created_at := "t0", updated_at := "t1" })] }

/-- Fixture: agent "a1" disabled (as left by `toggle_agent` on `wState`) with
its handle still cached from before. -/
def dStateCached : AppState :=
  { agents_cache :=
      [("a1", { cfg := { wDraftOld with enabled := false }, id := "a1",
                created_at := "t0", updated_at := "t1" })],
    active_agents := [("a1", wHandleOld)],
    conversation_history := [],
    db := emptyTables }

/-- Fixture: the same disabled agent with no cached handle. -/
def dStateNoHandle : AppState := { dStateCached with active_agents := [] }

/-- Fixture: a draft violating every create-time constraint of the claim
(empty name/prompt/provider/model, temperature outside [0, 2], non-positive
max tokens). -/
def badDraft : AgentDraft :=
  { name := "", description := "", system_prompt := "", model_provider := "",
    model_name := "", temperature := 5, max_tokens := -1, tools := [], enabled := true }

/-- Fixture: a draft targeting the gemini provider. -/
def geminiDraft : AgentDraft :=
  { name := "G", description := "", system_prompt := "p", model_provider := "gemini",
    model_name := "gemini-pro", temperature := 1, max_tokens := 100, tools := [], enabled := true }

/-- Fixture: a user message dict as built by `chat_with_agent`. -/
def cexUserMsg : HistMsg := { role := "user", content := "u", timestamp := "t1", usage := none }

/-- Fixture: an assistant message dict carrying usage of 5 total tokens. -/
def cexAgentMsg : HistMsg :=
  { role := "assistant", content := "r", timestamp := "t2", usage := some { total_tokens := some 5 } }

/-- Fixture: a connection with nothing durable and nothing pending. -/
def emptyConn : Conn := { durable := emptyTables, pending := emptyTables }

/-- Writing a key into an association list makes it the value looked up at
that key. -/
theorem lookupA_setA_self {α : Type} (l : List (String × α)) (k : String) (v : α) :
    lookupA (setA l k v) k = some v := by
  induction l with
  | nil => simp [setA, lookupA]
  | cons a rest ih =>
      obtain ⟨ak, av⟩ := a
      by_cases h : ak = k
      · simp [setA, lookupA, h]
      · simp [setA, lookupA, h, ih]

/-- A successful association-list lookup exhibits an entry with that key. -/
theorem lookupA_mem_fst {α : Type} (l : List (String × α)) (k : String) (v : α)
    (h : lookupA l k = some v) : ∃ pr, pr ∈ l ∧ pr.1 = k := by
  induction l with
  | nil => simp [lookupA] at h
  | cons a rest ih =>
      obtain ⟨ak, av⟩ := a
      by_cases hk : ak = k
      · exact ⟨(ak, av), List.mem_cons_self _ _, hk⟩
      · simp only [lookupA, hk, if_false] at h
        obtain ⟨pr, hmem, hfst⟩ := ih h
        exact ⟨pr, List.mem_cons_of_mem _ hmem, hfst⟩

/-- If no stats row matches, the lookup falls through an appended suffix. -/
theorem lookupStats_append_of_none (rows : List StatsRow) (agentid : String)
    (l2 : List StatsRow) (h : lookupStats rows agentid = none) :
    lookupStats (rows ++ l2) agentid = lookupStats l2 agentid := by
  induction rows with
  | nil => rfl
  | cons r rest ih =>
      by_cases hr : r.agent_id = agentid
      · simp [lookupStats, hr] at h
      · simp only [lookupStats, hr, if_false] at h
        simp only [List.cons_append, lookupStats, hr, if_false]
        exact ih h

/-- Bumping the matching rows of the stats table rewrites the looked-up row to
its bumped form. -/
theorem lookupStats_map_bump (rows : List StatsRow) (agentid : String) (tokens : Nat)
    (now : String) (r : StatsRow) (h : lookupStats rows agentid = some r) :
    lookupStats (rows.map (fun x => if x.agent_id = agentid then bumpStats x tokens now else x))
      agentid = some (bumpStats r tokens now) := by
  induction rows with
  | nil => simp [lookupStats] at h
  | cons a rest ih =>
      by_cases ha : a.agent_id = agentid
      · have har : a = r := by
          simp [lookupStats, ha] at h
          exact h
        subst har
        simp [lookupStats, ha, bumpStats]
      · simp only [lookupStats, ha, if_false] at h
        simp only [List.map_cons, lookupStats, ha, if_false]
        exact ih h

/-- The fold step for AgentStats written from the spec's words (§4.4): count
plus one and tokens plus the exchange's total on an existing row, or a fresh
row with count 1 and that token count. -/
def specStatsAfter (prev : Option StatsRow) (agentid : String)
    (usage : Option UsageData) (now : String) : StatsRow :=
  match prev with
  | some r =>
      { r with total_conversations := r.total_conversations + 1,
               total_tokens_used := r.total_tokens_used + usageTokens usage,
               last_used := now, updated_at := now }
  | none =>
      { agent_id := agentid, total_conversations := 1,
        total_tokens_used := usageTokens usage,
        last_used := now, created_at := now, updated_at := now }

/-- The stats row visible after `_update_agent_stats` is exactly the spec's
fold step applied to the previously visible row. -/
theorem lookup_update_agent_stats (rows : List StatsRow) (agentid : String)
    (usage : Option UsageData) (now : String) :
    lookupStats (update_agent_stats rows agentid usage now) agentid =
      some (specStatsAfter (lookupStats rows agentid) agentid usage now) := by
  unfold update_agent_stats
  cases h : lookupStats rows agentid with
  | some r =>
      simp only [specStatsAfter]
      exact lookupStats_map_bump rows agentid (usageTokens usage) now r h
  | none =>
      rw [lookupStats_append_of_none rows agentid _ h]
      simp [lookupStats, freshStats, specStatsAfter]

/-- Claim C6: for every append, the stats row for the agent has its
conversation count incremented by 1, its token count incremented by the
usage's total tokens (0 when usage is absent), and its last-used timestamp
set to now; when no stats row existed, one is created with count 1 and that
token count. -/
theorem save_conversation_stats_update (t : Tables) (agentid : String)
    (um am : HistMsg) (now : String) :
    lookupStats (save_conversation_pure t agentid um am now).agent_stats agentid =
      some (specStatsAfter (lookupStats t.agent_stats agentid) agentid am.usage now) :=
  lookup_update_agent_stats t.agent_stats agentid am.usage now

/-- Claim C9: the purge deletes exactly the Exchange rows and system-log rows
older than the cutoff and leaves every AgentStats row completely unchanged. -/
theorem cleanup_old_data_preserves_stats (t : Tables) (cutoff : String) :
    (cleanup_old_data t cutoff).agent_stats = t.agent_stats ∧
    (∀ r : ConvRow, r ∈ (cleanup_old_data t cutoff).conversations ↔
      (r ∈ t.conversations ∧ ¬ r.created_at < cutoff)) ∧
    (∀ e : LogRow, e ∈ (cleanup_old_data t cutoff).system_logs ↔
      (e ∈ t.system_logs ∧ ¬ e.timestamp < cutoff)) := by
  refine ⟨rfl, ?_, ?_⟩ <;> intro x <;>
    simp [cleanup_old_data, List.mem_filter]

/-- Claim C10: the three ledger reads are total functions; on an internal
storage failure, history returns the empty list, stats returns the absent
value and the total count returns 0 — each equal to the value the same read
produces on a genuinely empty database. -/
theorem ledger_reads_default_on_failure (t : Tables) (agentid : String) (limit : Nat) :
    get_conversation_history t agentid limit true = [] ∧
    get_agent_stats t agentid true = none ∧
    get_total_conversations t true = 0 ∧
    get_conversation_history emptyTables agentid limit false = [] ∧
    get_agent_stats emptyTables agentid false = none ∧
    get_total_conversations emptyTables false = 0 := by
  refine ⟨rfl, rfl, rfl, ?_, rfl, rfl⟩
  simp [get_conversation_history, historyQuery, emptyTables]

/-- Claim C4 counterexample: a draft violating every create-time constraint
(empty name, prompt, provider and model, temperature 5 outside [0, 2],
max tokens -1) is accepted by `create_agent`, which persists it and returns
the fresh identity instead of failing with a validation error. -/
theorem create_accepts_invalid_draft_cex :
    (create_agent [] badDraft "id-1" "t0").1 = "id-1" ∧
    lookupA (create_agent [] badDraft "id-1" "t0").2 "id-1" =
      some { cfg := badDraft, id := "id-1", created_at := "t0", updated_at := "t0" } ∧
    badDraft.name = "" ∧ ¬ badDraft.temperature ≤ 2 ∧ ¬ 0 < badDraft.max_tokens := by
  refine ⟨rfl, rfl, rfl, by norm_num [badDraft], by norm_num [badDraft]⟩

/-- Claim C4 as amended: `create(draft)` performs no field-content validation
— for every draft accepted by the type layer it succeeds, returns the
generated identity, stamps both timestamps to the current time and persists
the definition under that identity. -/
theorem create_agent_no_validation (cache : List (String × StoredAgent))
    (draft : AgentDraft) (fresh now : String) :
    (create_agent cache draft fresh now).1 = fresh ∧
    lookupA (create_agent cache draft fresh now).2 fresh =
      some { cfg := draft, id := fresh, created_at := now, updated_at := now } :=
  ⟨rfl, lookupA_setA_self cache fresh _⟩

/-- Claim C3 counterexample: starting from an empty connection, a failure
between the Exchange write and the stats update is swallowed (no error
escapes), nothing is durable at that point, yet the next successful commit on
the same connection (a system-log write) durably commits the Exchange row
while the stats delta is lost forever. -/
theorem save_conversation_partial_commit_cex :
    (save_conversation_tx emptyConn "a1" cexUserMsg cexAgentMsg "t2" true).2 = false ∧
    (save_conversation_tx emptyConn "a1" cexUserMsg cexAgentMsg "t2" true).1.durable = emptyTables ∧
    (log_system_event_tx (save_conversation_tx emptyConn "a1" cexUserMsg cexAgentMsg "t2" true).1
        "INFO" "m" none "t3").1.durable.conversations =
      [mkConvRow "a1" cexUserMsg cexAgentMsg "t2"] ∧
    (log_system_event_tx (save_conversation_tx emptyConn "a1" cexUserMsg cexAgentMsg "t2" true).1
        "INFO" "m" none "t3").1.durable.agent_stats = [] :=
  ⟨rfl, rfl, rfl, rfl⟩

/-- Claim C3 as amended: a storage failure between the Exchange write and the
stats update aborts that call before its commit — neither row is durable when
the call returns — but the failure is caught and only printed, never surfaced
to the caller, and the Exchange row stays in the connection's open
transaction, so the next successful commit on the same connection durably
records it without the matching stats delta. -/
theorem save_conversation_failure_swallowed (c : Conn) (agentid : String)
    (um am : HistMsg) (now lvl m now2 : String) (d : Option String) :
    (save_conversation_tx c agentid um am now true).2 = false ∧
    (save_conversation_tx c agentid um am now true).1.durable = c.durable ∧
    (save_conversation_tx c agentid um am now true).1.pending.conversations =
      c.pending.conversations ++ [mkConvRow agentid um am now] ∧
    (save_conversation_tx c agentid um am now true).1.pending.agent_stats =
      c.pending.agent_stats ∧
    (log_system_event_tx (save_conversation_tx c agentid um am now true).1
        lvl m d now2).1.durable.conversations =
      c.pending.conversations ++ [mkConvRow agentid um am now] ∧
    (log_system_event_tx (save_conversation_tx c agentid um am now true).1
        lvl m d now2).1.durable.agent_stats = c.pending.agent_stats :=
  ⟨rfl, rfl, rfl, rfl, rfl, rfl⟩

/-- Claim C1 counterexample: with a handle for "a1" cached, committing an
update that changes the system prompt from "old" to "new" leaves the stale
handle in the cache, and the next send is answered through that stale handle
(it echoes "old"), not through the handle `create_agent_instance` would build
from the updated definition (whose prompt is "new"). -/
theorem update_leaves_stale_handle_cex :
    api_update_agent wState "a1" wDraftNew "t1" = .ok wStateUpd ∧
    lookupA wStateUpd.active_agents "a1" = some wHandleOld ∧
    (chat wRun wStateUpd "a1" "hi" "t2").1 = .ok "old" none ∧
    create_agent_instance wDraftNew =
      .ok { model := { provider := "openai", model_name := "gpt-4",
                       temperature := 1, max_tokens := 100 },
            system_prompt := "new", tools := [] } ∧
    wHandleOld.system_prompt ≠ "new" := by
  refine ⟨rfl, rfl, rfl, rfl, by decide⟩

/-- Claim C1 as amended: committing `update(id, draft)` does not evict the
cached runtime handle — the runtime session cache is untouched by the update
endpoint — so a subsequent send for an id with a cached handle is served by
the stale pre-update handle. -/
theorem update_preserves_cached_handle
    (run : Handle → String → String × Option UsageData) (s s2 : AppState)
    (agentid : String) (draft : AgentDraft) (now now2 msg : String) (hd : Handle)
    (h1 : lookupA s.active_agents agentid = some hd)
    (h2 : api_update_agent s agentid draft now = .ok s2) :
    lookupA s2.active_agents agentid = some hd ∧
    (chat run s2 agentid msg now2).1 = .ok (run hd msg).1 (run hd msg).2 := by
  have hact : s2.active_agents = s.active_agents := by
    unfold api_update_agent at h2
    cases hu : update_agent s.agents_cache agentid draft now with
    | error e => rw [hu] at h2; cases h2
    | ok c2 => rw [hu] at h2; cases h2; rfl
  have hl : lookupA s2.active_agents agentid = some hd := by rw [hact]; exact h1
  refine ⟨hl, ?_⟩
  simp [chat, hl, chatWithHandle]

/-- Claim C1 witness: the amended theorem applied to the concrete cached
state and echo oracle. -/
theorem update_preserves_cached_handle_witness :
    lookupA wStateUpd.active_agents "a1" = some wHandleOld ∧
    (chat wRun wStateUpd "a1" "hello" "t2").1 =
      .ok (wRun wHandleOld "hello").1 (wRun wHandleOld "hello").2 :=
  update_preserves_cached_handle wRun wState wStateUpd "a1" wDraftNew "t1" "t2" "hello"
    wHandleOld rfl rfl

/-- Claim C2 counterexample: agent "a1" is toggled to disabled while its
handle is cached; the next send does not fail with the disabled error — it
succeeds through the cached handle and appends an Exchange to the ledger. -/
theorem disabled_with_cached_handle_cex :
    toggle_agent wState "a1" "t1" = .ok dStateCached ∧
    (lookupA dStateCached.agents_cache "a1").map (fun st => st.cfg.enabled) = some false ∧
    (chat wRun dStateCached "a1" "hi" "t2").1 ≠ .err "Agent is disabled" ∧
    (chat wRun dStateCached "a1" "hi" "t2").1 = .ok "old" none ∧
    (chat wRun dStateCached "a1" "hi" "t2").2.db.conversations.length = 1 := by
  refine ⟨rfl, rfl, by decide, rfl, rfl⟩

/-- Claim C2 as amended: sending to a disabled agent fails with the disabled
error and leaves the whole state — ledger included — unchanged only when no
runtime handle for it is cached; a handle cached before the agent was
disabled keeps serving sends. -/
theorem chat_disabled_without_cached_handle
    (run : Handle → String → String × Option UsageData) (s : AppState)
    (agentid msg now : String) (st : StoredAgent)
    (h1 : lookupA s.active_agents agentid = none)
    (h2 : lookupA s.agents_cache agentid = some st)
    (h3 : st.cfg.enabled = false) :
    chat run s agentid msg now = (.err "Agent is disabled", s) := by
  simp [chat, h1, h2, h3]

/-- Claim C2 witness: the amended theorem applied to the disabled agent with
an empty runtime session cache. -/
theorem chat_disabled_without_cached_handle_witness :
    chat wRun dStateNoHandle "a1" "hi" "t2" = (.err "Agent is disabled", dStateNoHandle) :=
  chat_disabled_without_cached_handle wRun dStateNoHandle "a1" "hi" "t2"
    { cfg := { wDraftOld with enabled := false }, id := "a1",
      created_at := "t0", updated_at := "t1" } rfl rfl rfl

/-- A provider is configured exactly when its catalog entry exists, declares a
non-empty credential key name, and that variable is present (possibly empty)
in the environment. -/
theorem is_provider_configured_iff (providers : List (String × ProviderConfig))
    (env : String → Option String) (p : String) :
    is_provider_configured providers env p = true ↔
      ∃ cfg k, lookupA providers p = some cfg ∧ cfg.api_key_env = some k ∧
        k ≠ "" ∧ (env k).isSome := by
  unfold is_provider_configured
  cases hl : lookupA providers p with
  | none => simp
  | some cfg =>
      cases hk : cfg.api_key_env with
      | none => simp [hk]
      | some k =>
          by_cases hke : k = ""
          · subst hke; simp [hk]
          · simp [hk, hke]

/-- Claim C7 counterexample: with the default catalog and OPENAI_API_KEY set
to the empty string, the available-providers listing still includes openai,
although its credential does not resolve to a non-empty value. -/
theorem available_with_empty_credential_cex :
    (fun k => if k = "OPENAI_API_KEY" then some "" else none) "OPENAI_API_KEY" = some "" ∧
    "openai" ∈ (get_available_models default_providers
      (fun k => if k = "OPENAI_API_KEY" then some "" else none)).map Prod.fst := by
  refine ⟨rfl, by decide⟩

/-- Claim C7 as amended: for every provider in the catalog, the available set
includes it iff its catalog entry declares a non-empty credential-lookup key
name and that key is present in the process environment at call time — with
any value, the empty string included. -/
theorem available_providers_membership (providers : List (String × ProviderConfig))
    (env : String → Option String) (p : String) :
    p ∈ (get_available_models providers env).map Prod.fst ↔
      ∃ cfg k, lookupA providers p = some cfg ∧ cfg.api_key_env = some k ∧
        k ≠ "" ∧ (env k).isSome := by
  rw [← is_provider_configured_iff providers env p]
  unfold get_available_models
  rw [List.map_map]
  simp only [List.mem_map, List.mem_filter, Function.comp]
  constructor
  · rintro ⟨pr, ⟨hmem, hconf⟩, hfst⟩
    rwa [hfst] at hconf
  · intro hconf
    have hsome : ∃ cfg, lookupA providers p = some cfg := by
      revert hconf
      unfold is_provider_configured
      cases hl : lookupA providers p with
      | none => intro h; cases h
      | some cfg => intro _; exact ⟨cfg, rfl⟩
    obtain ⟨cfg, hl⟩ := hsome
    obtain ⟨pr, hmem, hfst⟩ := lookupA_mem_fst providers p cfg hl
    refine ⟨pr, ⟨hmem, ?_⟩, hfst⟩
    rwa [hfst]

/-- Claim C8 counterexample: with an empty environment the gemini provider is
not in the available (credentialed) set, yet building a handle for a gemini
agent succeeds and produces a handle instead of failing. -/
theorem handle_built_without_credentials_cex :
    is_provider_configured default_providers (fun _ => none) "gemini" = false ∧
    create_agent_instance geminiDraft =
      .ok { model := { provider := "gemini", model_name := "gemini-pro",
                       temperature := 1, max_tokens := 100 },
            system_prompt := "p", tools := [] } :=
  ⟨rfl, rfl⟩

/-- Claim C8 as amended: handle construction fails with the
unsupported-provider error exactly when the provider identifier is none of
the three hardcoded providers (openai, anthropic, gemini); the set of
currently credentialed providers is never consulted by the build. -/
theorem create_agent_instance_known_providers (cfg : AgentDraft) :
    (∃ h, create_agent_instance cfg = .ok h) ↔
      (cfg.model_provider = "openai" ∨ cfg.model_provider = "anthropic" ∨
        cfg.model_provider = "gemini") := by
  unfold create_agent_instance get_model
  by_cases h1 : cfg.model_provider = "openai"
  · simp [h1]
  · by_cases h2 : cfg.model_provider = "anthropic"
    · simp [h1, h2]
    · by_cases h3 : cfg.model_provider = "gemini"
      · simp [h1, h2, h3]
      · simp [h1, h2, h3]
